import Mathlib

/-!
Verification development for the `dataprepkit` repository.

The dynamic-SQL merge module (`dataprepkit.helpers.transforms.insert_update`)
is exercised by the repository's tests but its implementation file is not part
of the source tree available here; its operations are therefore modelled from
the specification, faithful to the spec's wording, and checked against the
behaviour the tests pin down.  The warehouse connector
(`dataprepkit/helpers/connectors/warehouse.py`) and the quarterly-data
processor (`dataprepkit/processors/quarterly/qdata_processor.py`) are embedded
directly from their source.
-/

namespace DataPrepKit

/-- Error taxonomy of the core (spec section 7): malformed identifiers,
caller-input validation failures, pre-load data-quality gate failures, and
driver/transaction failures, each carrying a message. -/
inductive DPError where
  | invalidIdentifier (msg : String)
  | validationError (msg : String)
  | dataQualityError (msg : String)
  | databaseError (msg : String)
deriving DecidableEq, Repr

/-! ## Dimension registry (`qdata_processor.py`) -/

/-- `register_dimension` from `qdata_processor.py`: stores a DataFrame under a
name in the process-wide registry.  The mutable dict is embedded as an
association list in which the most recent binding shadows older ones, matching
Python dict assignment as observed through `get_dimension`. -/
def register_dimension {α : Type} (reg : List (String × α)) (name : String)
    (df : α) : List (String × α) :=
  (name, df) :: reg

/-- `get_dimension` from `qdata_processor.py`: retrieves a registered
DataFrame, raising `ValueError` naming the dimension when it is absent. -/
def get_dimension {α : Type} (reg : List (String × α)) (name : String) :
    Except String α :=
  match reg.lookup name with
  | some df => .ok df
  | none => .error ("Dimension '" ++ name ++ "' not found in registry")

/-! ## Fabric warehouse engine (`warehouse.py`) -/

/-- The engine configuration assembled by `get_fabric_engine` in
`warehouse.py` when every step succeeds. -/
structure FabricEngine where
  driver : String
  server : String
  token : String
  pool_pre_ping : Bool
  pool_recycle : Nat
deriving DecidableEq, Repr

/-- Python truthiness of an optional string argument: `None` and the empty
string are falsy. -/
def pyFalsy : Option String → Bool
  | none => true
  | some s => s.isEmpty

/-- `get_fabric_engine` from `warehouse.py`.  The guard `if not sql_endpoint`
raises `ValueError` before anything in the `try` block runs.  The external
effects inside the block (ODBC driver detection, token retrieval) are supplied
as `Except` inputs modelling their outcomes; the second component of the
result records which external actions were performed, in order. -/
def get_fabric_engine (sql_endpoint : Option String) (port : Int)
    (driverDetect : Except String String) (tokenFetch : Except String String) :
    Except String FabricEngine × List String :=
  if pyFalsy sql_endpoint then
    (.error "sql_endpoint is required and cannot be empty.", [])
  else
    match driverDetect with
    | .error e => (.error e, ["get_latest_sql_driver"])
    | .ok driver =>
      match tokenFetch with
      | .error e => (.error e, ["get_latest_sql_driver", "getToken"])
      | .ok token =>
        (.ok { driver := driver
               server := (sql_endpoint.getD "") ++ "," ++ toString port
               token := token
               pool_pre_ping := true
               pool_recycle := 3600 },
         ["get_latest_sql_driver", "getToken", "create_engine"])

/-! ## QualifiedName Resolver (spec section 4.1)

The implementation file `dataprepkit/helpers/transforms/insert_update.py` is
not part of the available source tree; `_parse_qualified_table` is modelled
from the spec and checked against the shapes its test module pins down. -/

/-- Modelled from the spec: characters valid in an unquoted SQL identifier
once brackets are stripped (spec section 3, QualifiedTableName invariant). -/
def isIdentChar (c : Char) : Bool := c.isAlphanum || c = '_'

/-- Modelled from the spec: consume one bracket-quoted identifier at the head
of the character list, returning the identifier and the remainder after the
closing bracket.  Helper for the missing `_parse_qualified_table`. -/
def parseBracketed (cs : List Char) : Option (List Char × List Char) :=
  if cs.head? = some '[' then
    let ident := cs.tail.takeWhile isIdentChar
    let rest := cs.tail.dropWhile isIdentChar
    if ident.isEmpty then none
    else if rest.head? = some ']' then some (ident, rest.tail) else none
  else none

/-- Modelled from the spec: the accepted shapes of a qualified table name —
bracketed schema and table, bracketed table alone, or a bare identifier;
every other shape is rejected.  Core of the missing `_parse_qualified_table`. -/
def parseQualifiedChars (cs : List Char) : Option (Option (List Char) × List Char) :=
  match parseBracketed cs with
  | some (first, rest) =>
    if rest.isEmpty then some (none, first)
    else if rest.head? = some '.' then
      match parseBracketed rest.tail with
      | some (tbl, rest3) => if rest3.isEmpty then some (some first, tbl) else none
      | none => none
    else none
  | none =>
    if cs.isEmpty then none
    else if cs.all isIdentChar then some (none, cs) else none

/-- The expected-format error message of the resolver; the test module pins
the substring "not in the format". -/
def qualifiedNameError (s : String) : String :=
  "Table name '" ++ s ++ "' is not in the format [schema].[table] or [table]"

/-- Modelled from the spec: `_parse_qualified_table` of the missing
`insert_update` module — maps "[s].[t]" to (s, t), "[t]" and a bare word to
(None, t), and fails on every other shape with an error stating the expected
bracket format. -/
def _parse_qualified_table (s : String) : Except DPError (Option String × String) :=
  match parseQualifiedChars s.data with
  | some (some sch, tbl) => .ok (some (String.mk sch), String.mk tbl)
  | some (none, tbl) => .ok (none, String.mk tbl)
  | none => .error (.invalidIdentifier (qualifiedNameError s))

/-- The character sequence of a bracket-quoted identifier, "[id]". -/
def bracketedChars (id : List Char) : List Char := '[' :: (id ++ [']'])

/-- The character sequence of a schema-qualified bracketed name,
"[sch].[tbl]". -/
def dottedPair (sch tbl : List Char) : List Char :=
  bracketedChars sch ++ '.' :: bracketedChars tbl

/-- The three accepted shapes of a qualified table name, as the spec words
them: bracketed schema and table, bracketed table, or a bare identifier. -/
def QualifiedShape (cs : List Char) : Prop :=
  (∃ sch tbl : List Char, sch ≠ [] ∧ sch.all isIdentChar = true ∧
      tbl ≠ [] ∧ tbl.all isIdentChar = true ∧ cs = dottedPair sch tbl) ∨
  (∃ tbl : List Char, tbl ≠ [] ∧ tbl.all isIdentChar = true ∧
      cs = bracketedChars tbl) ∨
  (cs ≠ [] ∧ cs.all isIdentChar = true)

/-! ## Bulk Column Updater (spec section 4.6)

`update_records_tsql` is modelled from the spec (its implementation file is
not in the source tree).  Following the spec's design note, the dynamic SQL is
modelled as a builder: a statement structure whose pieces render to the
dialect text, rather than raw string interpolation. -/

/-- Bracket-quote an identifier for the generated T-SQL. -/
def bracketQuote (s : String) : String := "[" ++ s ++ "]"

/-- One tgt/src column pair of the generated UPDATE: the pair (t, s) stands
for the text tgt.[t] = src.[s]. -/
def joinPredicate (k : String) : String × String := (k, k)

/-- Modelled from the spec: the single UPDATE…FROM…INNER JOIN statement built
by the missing `update_records_tsql`, represented structurally. -/
structure TsqlUpdateStatement where
  setClauses : List (String × String)
  fromTable : String
  joinTable : String
  onPredicates : List (String × String)
  whereNotNullCol : String
deriving DecidableEq, Repr

/-- Render one tgt/src column equality to its T-SQL text. -/
def renderPredicate (p : String × String) : String :=
  "tgt." ++ bracketQuote p.1 ++ " = src." ++ bracketQuote p.2

/-- Render the whole statement: UPDATE tgt SET … FROM [target] tgt INNER JOIN
[source] src ON … AND … WHERE tgt.[surrogateKey] IS NOT NULL. -/
def renderUpdateStatement (st : TsqlUpdateStatement) : String :=
  "UPDATE tgt SET " ++
    String.intercalate ", " (st.setClauses.map renderPredicate) ++
  " FROM " ++ st.fromTable ++ " tgt INNER JOIN " ++ st.joinTable ++ " src ON " ++
    String.intercalate " AND " (st.onPredicates.map renderPredicate) ++
  " WHERE tgt." ++ bracketQuote st.whereNotNullCol ++ " IS NOT NULL"

/-- `join_keys` may be passed as a single key or an ordered list of keys. -/
def normalizeJoinKeys : String ⊕ List String → List String
  | .inl k => [k]
  | .inr ks => ks

/-- Modelled from the spec: the statement assembly of the missing
`update_records_tsql` — one SET clause per column to update, one AND-ed ON
predicate per join key, and the IS-NOT-NULL guard on the surrogate key. -/
def build_update_statement (target source : String) (joinKeys : List String)
    (surrogate : String) (cols : List String) : TsqlUpdateStatement :=
  { setClauses := cols.map (fun c => (c, c))
    fromTable := target
    joinTable := source
    onPredicates := joinKeys.map joinPredicate
    whereNotNullCol := surrogate }

/-- Modelled from the spec: `update_records_tsql` of the missing
`insert_update` module — rejects an empty `columns_to_update`, otherwise
executes the single built statement inside a begin/commit scope and returns
the driver-reported affected-row count (supplied here as an input modelling
the driver's report). -/
def update_records_tsql (target source : String)
    (joinKeys : String ⊕ List String) (surrogate : String)
    (cols : List String) (driverRowcount : Nat) :
    Except DPError (TsqlUpdateStatement × Nat) :=
  if cols.isEmpty then
    .error (.validationError "`columns_to_update` must be a non-empty list")
  else
    .ok (build_update_statement target source (normalizeJoinKeys joinKeys)
      surrogate cols, driverRowcount)

/-! ## Validators (spec section 4.2)

The data-quality gates are modelled from the spec over an in-memory table: a
list of rows, each a finite assignment of nullable values to column names. -/

/-- A table row for the data-quality gates; `none` is SQL NULL. -/
abbrev VRow := String → Option String

/-- Modelled from the spec: the count of rows in which any listed column is
NULL — the offending-row count reported by the missing
`validate_table_no_nulls`. -/
def nullViolationCount (rows : List VRow) (cols : List String) : Nat :=
  (rows.filter (fun r => cols.any (fun c => (r c).isNone))).length

/-- Modelled from the spec: `validate_table_no_nulls` of the missing
`insert_update` module — passes silently when no row has a NULL listed
column, else fails with a DataQualityError stating the exact row count. -/
def validate_table_no_nulls (rows : List VRow) (cols : List String) :
    Except DPError Unit :=
  let n := nullViolationCount rows cols
  if n = 0 then .ok ()
  else .error (.dataQualityError
    ("Found " ++ toString n ++ " rows with NULL values in business key columns"))

/-- The business-key tuple of a row. -/
def bkTuple (cols : List String) (r : VRow) : List (Option String) := cols.map r

/-- Modelled from the spec: the number of business-key groups having more
than one row, reported by the missing `validate_table_uniqueness`. -/
def duplicateGroupCount (rows : List VRow) (cols : List String) : Nat :=
  ((rows.map (bkTuple cols)).dedup.filter
    (fun k => decide (1 < (rows.map (bkTuple cols)).count k))).length

/-- Modelled from the spec: `validate_table_uniqueness` of the missing
`insert_update` module — groups by the full column tuple and fails with a
DataQualityError when any group has more than one row, reporting the count of
duplicated groups. -/
def validate_table_uniqueness (rows : List VRow) (cols : List String) :
    Except DPError Unit :=
  let g := duplicateGroupCount rows cols
  if g = 0 then .ok ()
  else .error (.dataQualityError
    ("Duplicate business keys found: " ++ toString g ++
      " duplicated business key groups"))

/-! ## Merge Engine (spec section 4.5)

`populate_table_from_source` is modelled from the spec as the functional
composition of its transactional steps over an in-memory relational model.
Driver behaviour (the INSERT's reported row count, the fallback COUNT query's
outcome) is supplied as inputs, per the spec's design note that row-count
ambiguity be an explicit optional-integer result. -/

/-- A cell value of the in-memory relational model. -/
inductive Value where
  | intV (n : Int)
  | strV (s : String)
  | nullV
deriving DecidableEq, Repr

/-- A row: an assignment of values to column names. -/
abbrev Row := String → Value

/-- Modelled from the spec: `_get_max_surrogate_key` of the missing
`insert_update` module — SELECT MAX over the surrogate-key column; `none`
when the table has no rows or the column is never an integer (SQL NULL
result). -/
def _get_max_surrogate_key (rows : List Row) (sk : String) : Option Int :=
  rows.foldl (fun acc r =>
    match r sk with
    | .intV n =>
      match acc with
      | some m => some (max m n)
      | none => some n
    | _ => acc) none

/-- Overwrite one column of a row. -/
def setCol (r : Row) (c : String) (v : Value) : Row :=
  fun c2 => if c2 = c then v else r c2

/-- Do a source row and a target row agree on every match key? -/
def rowsMatch (matchKeys : List String) (s t : Row) : Bool :=
  matchKeys.all (fun k => decide (s k = t k))

/-- Modelled from the spec: step 2 of `populate_table_from_source` — the
single UPDATE of target rows matching a source row on all match keys,
setting each update column from the matching source row. -/
def updatePhase (target source : List Row)
    (matchKeys updateCols : List String) : List Row :=
  target.map (fun t =>
    match source.find? (fun s => rowsMatch matchKeys s t) with
    | some s => updateCols.foldl (fun r c => setCol r c (s c)) t
    | none => t)

/-- The driver-reported affected count of the UPDATE phase, which the spec
assumes reliable: the number of target rows matched by some source row. -/
def updateAffectedCount (target source : List Row)
    (matchKeys : List String) : Nat :=
  target.countP (fun t => source.any (fun s => rowsMatch matchKeys s t))

/-- Modelled from the spec: step 3's selected row set — source rows whose
match-key tuple has no counterpart in the target. -/
def newSourceRows (target source : List Row) (matchKeys : List String) :
    List Row :=
  source.filter (fun s => !(target.any (fun t => rowsMatch matchKeys s t)))

/-- Assign surrogate keys nextId, nextId + 1, … to consecutive rows. -/
def assignKeysFrom (sk : String) : Int → List Row → List Row
  | _, [] => []
  | nextId, r :: rs =>
      setCol r sk (.intV nextId) :: assignKeysFrom sk (nextId + 1) rs

/-- Modelled from the spec: the windowed-numbering key assignment of step 3 —
each selected row receives maxId + rowNumber, rowNumber a dense 1-based
ordinal over the selected set. -/
def assignSurrogateKeys (maxId : Int) (sk : String) (rows : List Row) :
    List Row :=
  assignKeysFrom sk (maxId + 1) rows

/-- Modelled from the spec: the fallback tier of step 4 — a successful
fallback COUNT gives the count; a fallback failure degrades to 0 with a
warning instead of propagating. -/
def fallbackResolve : Except DPError Nat → Nat × List String
  | .ok n => (n, [])
  | .error _ => (0, ["Could not determine row count from fallback count SQL"])

/-- Modelled from the spec: step 4's row-count resolution — a non-null,
non-negative driver count is used directly; otherwise the fallback COUNT is
consulted. -/
def resolveInsertedCount (driver : Option Int)
    (fallback : Except DPError Nat) : Nat × List String :=
  match driver with
  | some n => if 0 ≤ n then (n.toNat, []) else fallbackResolve fallback
  | none => fallbackResolve fallback

/-- The result of one Merge Engine invocation (spec section 3). -/
structure LoadResult where
  rows_updated : Nat
  rows_inserted : Nat
deriving DecidableEq, Repr

/-- Modelled from the spec: `populate_table_from_source` of the missing
`insert_update` module — one transaction performing the UPDATE phase, the
windowed INSERT of unmatched source rows seeded from the current max
surrogate key (0 when absent/null), row-count resolution, and the optional
source drop.  Returns (new target rows, source table after the optional
drop, LoadResult, warnings logged). -/
def populate_table_from_source (target source : List Row)
    (matchKeys : List String) (sk : String) (updateCols : List String)
    (insertDriverCount : Option Int) (fallbackCount : Except DPError Nat)
    (dropSource : Bool) :
    List Row × Option (List Row) × LoadResult × List String :=
  let maxId := (_get_max_surrogate_key target sk).getD 0
  let updated := updatePhase target source matchKeys updateCols
  let inserted :=
    assignSurrogateKeys maxId sk (newSourceRows target source matchKeys)
  let counts := resolveInsertedCount insertDriverCount fallbackCount
  (updated ++ inserted,
   if dropSource then none else some source,
   ⟨updateAffectedCount target source matchKeys, counts.1⟩,
   counts.2)

/-! ## Schema Cloner (spec section 4.3) -/

/-- A table of the in-memory database: its column list and its rows. -/
structure TableData where
  cols : List String
  rows : List Row

/-- The database: a mapping from table name to table. -/
abbrev Database := String → Option TableData

/-- Replace (or create) one table of the database. -/
def updateTable (db : Database) (name : String) (t : TableData) : Database :=
  fun n => if n = name then some t else db n

/-- The result dictionary of the schema cloner. -/
structure CreateTableResult where
  created_table : Bool
  added_surrogate_key : Bool
deriving DecidableEq, Repr

/-- Modelled from the spec: `create_table_from_existing_table_schema` of the
missing `insert_update` module (spec 4.3) — clone the source's columns into
an absent target, adding a non-empty surrogate key not already a source
column; on an existing empty target add the missing non-empty surrogate key;
never mutate an existing non-empty target.  Introspection failure (a missing
source) propagates as a database error. -/
def create_table_from_existing_table_schema (db : Database)
    (source_table target_table surrogate_key : String) :
    Except DPError (Database × CreateTableResult) :=
  match db target_table with
  | none =>
    match db source_table with
    | none => .error (.databaseError
        ("Could not introspect source table " ++ source_table))
    | some src =>
      if surrogate_key ≠ "" ∧ surrogate_key ∉ src.cols then
        .ok (updateTable db target_table ⟨src.cols ++ [surrogate_key], []⟩,
          ⟨true, true⟩)
      else
        .ok (updateTable db target_table ⟨src.cols, []⟩, ⟨true, false⟩)
  | some tgt =>
    if tgt.rows.isEmpty ∧ surrogate_key ≠ "" ∧ surrogate_key ∉ tgt.cols then
      .ok (updateTable db target_table
        ⟨tgt.cols ++ [surrogate_key], tgt.rows⟩, ⟨false, true⟩)
    else
      .ok (db, ⟨false, false⟩)

/-! ## Delta Inserter (spec section 4.4) -/

/-- The `business_key` argument of the delta inserter: a string, a list of
strings, or a value of another type (modelling e.g. an int passed by
mistake). -/
inductive BusinessKeyArg where
  | str (s : String)
  | strList (l : List String)
  | invalid
deriving DecidableEq, Repr

/-- Modelled from the spec: a single key is treated as a one-element list; a
non-string argument is rejected. -/
def normalizeBusinessKey : BusinessKeyArg → Option (List String)
  | .str s => some [s]
  | .strList l => some l
  | .invalid => none

/-- Modelled from the spec: the columns common to source and target,
excluding the surrogate key column. -/
def commonCols (srcCols tgtCols : List String) (sk : String) : List String :=
  (srcCols.filter (fun c => decide (c ∈ tgtCols))).filter
    (fun c => decide (c ≠ sk))

/-- The business-key tuple of a row. -/
def bkProj (keys : List String) (r : Row) : List Value := keys.map r

/-- Modelled from the spec: the anti-join — source rows whose business-key
tuple does not appear in the target's business-key projection. -/
def antiJoinRows (keys : List String) (srcRows tgtRows : List Row) :
    List Row :=
  srcRows.filter (fun s =>
    !(tgtRows.any (fun t => decide (bkProj keys s = bkProj keys t))))

/-- Modelled from the spec: a new target row built from the common columns of
a selected source row plus the assigned surrogate key; other columns are
NULL. -/
def projectRow (common : List String) (sk : String) (id : Int) (s : Row) :
    Row :=
  fun c => if c = sk then .intV id else if c ∈ common then s c else .nullV

/-- Assign surrogate keys nextId, nextId + 1, … to the selected rows while
projecting them onto the common columns. -/
def buildNewRows (common : List String) (sk : String) :
    Int → List Row → List Row
  | _, [] => []
  | nextId, s :: ss =>
      projectRow common sk nextId s :: buildNewRows common sk (nextId + 1) ss

/-- Modelled from the spec: `insert_new_records_dynamic` of the missing
`insert_update` module (spec 4.4) — after its validations, copy the source
rows absent from the target by business key into the target, assigning
surrogate keys starting at maxId + 1 (maxId defaulting to `default_start_id`
when the target has no rows or a null max).  An error result carries no
database: validation failures occur before any mutating statement. -/
def insert_new_records_dynamic (db : Database)
    (source_table target_table : String) (business_key : BusinessKeyArg)
    (surrogate_key : String) (default_start_id : Int) :
    Except DPError Database :=
  match normalizeBusinessKey business_key with
  | none => .error (.validationError
      "`business_key` must be a string or a list of strings")
  | some keys =>
    match db source_table with
    | none => .error (.validationError
        ("Source table " ++ source_table ++ " does not exist"))
    | some src =>
      match db target_table with
      | none => .error (.validationError
          ("Target table " ++ target_table ++ " does not exist"))
      | some tgt =>
        if (commonCols src.cols tgt.cols surrogate_key).isEmpty then
          .error (.validationError
            "No common columns between source and target tables")
        else if !(keys.all (fun k =>
            decide (k ∈ src.cols) && decide (k ∈ tgt.cols))) then
          .error (.validationError
            "Business key(s) missing from source or target table")
        else
          let maxId :=
            (_get_max_surrogate_key tgt.rows surrogate_key).getD
              default_start_id
          let newRows :=
            buildNewRows (commonCols src.cols tgt.cols surrogate_key)
              surrogate_key (maxId + 1)
              (antiJoinRows keys src.rows tgt.rows)
          .ok (updateTable db target_table ⟨tgt.cols, tgt.rows ++ newRows⟩)

/-- Witness fixture: a source row with business code A1. -/
def wRowA : Row := fun c =>
  if c = "Assurance_Cd" then .strV "A1"
  else if c = "Name" then .strV "Alpha" else .intV 1

/-- Witness fixture: a row with business code B2, present in source and
target. -/
def wRowB : Row := fun c =>
  if c = "Assurance_Cd" then .strV "B2"
  else if c = "Name" then .strV "Beta" else .intV 2

/-- Witness fixture: the source table. -/
def wSrc : TableData :=
  ⟨["Assurance_Id", "Assurance_Cd", "Name"], [wRowA, wRowB]⟩

/-- Witness fixture: the target table, already holding B2. -/
def wTgt : TableData :=
  ⟨["Assurance_Id", "Assurance_Cd", "Name"], [wRowB]⟩

/-- Witness fixture: the database holding the two tables. -/
def wDb : Database :=
  updateTable (updateTable (fun _ => none) "source" wSrc) "target" wTgt

lemma takeWhile_append_cons (p : Char → Bool) (l : List Char) (c : Char)
    (r : List Char) (hall : ∀ x ∈ l, p x = true) (hc : p c = false) :
    (l ++ c :: r).takeWhile p = l ∧ (l ++ c :: r).dropWhile p = c :: r := by
  induction l with
  | nil => simp [List.takeWhile_cons, List.dropWhile_cons, hc]
  | cons x xs ih =>
      have hx : p x = true := hall x (by simp)
      have h2 := ih (fun y hy => hall y (by simp [hy]))
      simp [List.takeWhile_cons, List.dropWhile_cons, hx, h2.1, h2.2]

lemma all_takeWhile_ident (l : List Char) :
    (l.takeWhile isIdentChar).all isIdentChar = true := by
  induction l with
  | nil => simp
  | cons x xs ih =>
      by_cases hx : isIdentChar x
      · simp [List.takeWhile_cons, hx, ih]
      · simp [List.takeWhile_cons, hx]

lemma parseBracketed_forward (id rest : List Char) (h1 : id ≠ [])
    (h2 : id.all isIdentChar = true) :
    parseBracketed (bracketedChars id ++ rest) = some (id, rest) := by
  have hmem : ∀ x ∈ id, isIdentChar x = true := List.all_eq_true.mp h2
  have hbr : isIdentChar ']' = false := by decide
  have hspan := takeWhile_append_cons isIdentChar id ']' rest hmem hbr
  have he : bracketedChars id ++ rest = '[' :: (id ++ ']' :: rest) := by
    simp [bracketedChars]
  rw [he]
  simp [parseBracketed, hspan.1, hspan.2, h1]

lemma parseBracketed_forward_nil (id : List Char) (h1 : id ≠ [])
    (h2 : id.all isIdentChar = true) :
    parseBracketed (bracketedChars id) = some (id, []) := by
  have := parseBracketed_forward id [] h1 h2
  simpa using this

lemma parseBracketed_inv (cs id rest : List Char)
    (h : parseBracketed cs = some (id, rest)) :
    cs = bracketedChars id ++ rest ∧ id ≠ [] ∧ id.all isIdentChar = true := by
  unfold parseBracketed at h
  split at h
  case isFalse => exact absurd h (by simp)
  case isTrue hhead =>
    obtain ⟨c, cs', rfl⟩ : ∃ c cs', cs = c :: cs' := by
      cases cs with
      | nil => simp at hhead
      | cons c cs' => exact ⟨c, cs', rfl⟩
    have hc : c = '[' := by simpa using hhead
    subst hc
    simp only [List.tail_cons] at h
    split at h
    case isTrue => exact absurd h (by simp)
    case isFalse hne =>
      split at h
      case isFalse => exact absurd h (by simp)
      case isTrue hr =>
        have hpair := Option.some.inj h
        obtain ⟨rfl, rfl⟩ : id = cs'.takeWhile isIdentChar ∧
            rest = (cs'.dropWhile isIdentChar).tail := by
          constructor
          · exact (congrArg Prod.fst hpair).symm
          · exact (congrArg Prod.snd hpair).symm
        refine ⟨?_, ?_, all_takeWhile_ident cs'⟩
        · have hd : cs'.dropWhile isIdentChar =
              ']' :: (cs'.dropWhile isIdentChar).tail := by
            cases hdw : cs'.dropWhile isIdentChar with
            | nil => rw [hdw] at hr; simp at hr
            | cons d ds =>
                rw [hdw] at hr
                simp at hr
                simp [hr]
          have hsplit := List.takeWhile_append_dropWhile isIdentChar cs'
          rw [hd] at hsplit
          simp only [bracketedChars, List.cons_append, List.append_assoc,
            List.singleton_append, List.nil_append]
          rw [hsplit]
        · intro hid
          rw [hid] at hne
          simp at hne

lemma parseQualifiedChars_shape (cs : List Char)
    (r : Option (List Char) × List Char)
    (h : parseQualifiedChars cs = some r) : QualifiedShape cs := by
  cases hpb : parseBracketed cs with
  | none =>
      simp only [parseQualifiedChars, hpb] at h
      split at h
      case isTrue => exact absurd h (by simp)
      case isFalse hne =>
        split at h
        case isTrue hall =>
          exact Or.inr (Or.inr ⟨by simpa [List.isEmpty_iff] using hne, hall⟩)
        case isFalse => exact absurd h (by simp)
  | some p =>
      obtain ⟨first, rest⟩ := p
      obtain ⟨hcs, hfne, hfall⟩ := parseBracketed_inv cs first rest hpb
      simp only [parseQualifiedChars, hpb] at h
      split at h
      case isTrue hre =>
        have : rest = [] := by simpa [List.isEmpty_iff] using hre
        subst this
        refine Or.inr (Or.inl ⟨first, hfne, hfall, ?_⟩)
        simpa using hcs
      case isFalse hre =>
        split at h
        case isFalse => exact absurd h (by simp)
        case isTrue hdot =>
          cases hpb2 : parseBracketed rest.tail with
          | none =>
              simp only [hpb2] at h
              exact absurd h (by simp)
          | some q =>
              obtain ⟨tbl, rest3⟩ := q
              simp only [hpb2] at h
              split at h
              case isFalse => exact absurd h (by simp)
              case isTrue hr3 =>
                have hr3e : rest3 = [] := by simpa [List.isEmpty_iff] using hr3
                subst hr3e
                obtain ⟨htail, htne, htall⟩ :=
                  parseBracketed_inv rest.tail tbl [] hpb2
                have hrest : rest = '.' :: rest.tail := by
                  cases hrw : rest with
                  | nil => rw [hrw] at hdot; simp at hdot
                  | cons d ds =>
                      rw [hrw] at hdot
                      simp at hdot
                      simp [hdot]
                refine Or.inl ⟨first, tbl, hfne, hfall, htne, htall, ?_⟩
                rw [hcs, hrest, htail]
                simp [dottedPair]

lemma parseBracketed_none_of_head (cs : List Char)
    (h : cs.head? ≠ some '[') : parseBracketed cs = none := by
  simp [parseBracketed, h]

lemma parseQualifiedChars_bare (bare : List Char) (h1 : bare ≠ [])
    (h2 : bare.all isIdentChar = true) :
    parseQualifiedChars bare = some (none, bare) := by
  have hhead : bare.head? ≠ some '[' := by
    cases bare with
    | nil => simp at h1
    | cons c cs =>
        have hc : isIdentChar c = true := by
          have := List.all_eq_true.mp h2
          exact this c (by simp)
        intro hcontra
        simp at hcontra
        rw [hcontra] at hc
        exact absurd hc (by decide)
  have hpb := parseBracketed_none_of_head bare hhead
  simp [parseQualifiedChars, hpb, h1, h2]

/-- Claim C6: the qualified-name resolver maps "[s].[t]" to (s, t), "[t]" to
(None, t) and a bare word to (None, t); every other shape — including
dot-separated names without brackets such as "schema.table" and the empty
string — fails with an error whose message states the expected bracket
format. -/
theorem parse_qualified_table_spec (sch tbl bare : List Char) (s : String)
    (hs1 : sch ≠ []) (hs2 : sch.all isIdentChar = true)
    (ht1 : tbl ≠ []) (ht2 : tbl.all isIdentChar = true)
    (hb1 : bare ≠ []) (hb2 : bare.all isIdentChar = true)
    (hother : ¬ QualifiedShape s.data) :
    _parse_qualified_table (String.mk (dottedPair sch tbl)) =
      .ok (some (String.mk sch), String.mk tbl) ∧
    _parse_qualified_table (String.mk (bracketedChars tbl)) =
      .ok (none, String.mk tbl) ∧
    _parse_qualified_table (String.mk bare) = .ok (none, String.mk bare) ∧
    _parse_qualified_table s = .error (.invalidIdentifier (qualifiedNameError s)) ∧
    _parse_qualified_table "schema.table" =
      .error (.invalidIdentifier (qualifiedNameError "schema.table")) ∧
    _parse_qualified_table "" =
      .error (.invalidIdentifier (qualifiedNameError "")) := by
  refine ⟨?_, ?_, ?_, ?_, by rfl, by rfl⟩
  · have hfirst := parseBracketed_forward sch ('.' :: bracketedChars tbl) hs1 hs2
    have hsecond := parseBracketed_forward_nil tbl ht1 ht2
    have hq : parseQualifiedChars (dottedPair sch tbl) = some (some sch, tbl) := by
      unfold dottedPair parseQualifiedChars
      rw [hfirst]
      simp only [List.isEmpty_cons, List.head?_cons, List.tail_cons, hsecond,
        List.isEmpty_nil]
      simp
    simp [_parse_qualified_table, hq]
  · have hpb := parseBracketed_forward_nil tbl ht1 ht2
    have hq : parseQualifiedChars (bracketedChars tbl) = some (none, tbl) := by
      simp [parseQualifiedChars, hpb]
    simp [_parse_qualified_table, hq]
  · have hq := parseQualifiedChars_bare bare hb1 hb2
    simp [_parse_qualified_table, hq]
  · cases hq : parseQualifiedChars s.data with
    | some r => exact absurd (parseQualifiedChars_shape s.data r hq) hother
    | none => simp [_parse_qualified_table, hq]

/-- Witness for C6 at concrete names, including the rejected "x.y". -/
theorem parse_qualified_table_spec_witness :
    _parse_qualified_table "[dbo].[tbl]" = .ok (some "dbo", "tbl") ∧
    _parse_qualified_table "[tbl]" = .ok (none, "tbl") ∧
    _parse_qualified_table "mytable" = .ok (none, "mytable") ∧
    _parse_qualified_table "x.y" =
      .error (.invalidIdentifier (qualifiedNameError "x.y")) := by
  have hshape : ¬ QualifiedShape (String.data "x.y") := by
    have hd : ("x.y" : String).data = ['x', '.', 'y'] := rfl
    rw [hd]
    rintro (⟨sch, tbl, -, -, -, -, h⟩ | ⟨tbl, -, -, h⟩ | ⟨-, h⟩)
    · have h1 := congrArg List.head? h
      simp [dottedPair, bracketedChars] at h1
    · have h1 := congrArg List.head? h
      simp [bracketedChars] at h1
    · exact absurd h (by decide)
  have h := parse_qualified_table_spec ['d', 'b', 'o'] ['t', 'b', 'l']
    ['m', 'y', 't', 'a', 'b', 'l', 'e'] "x.y" (by decide) (by decide)
    (by decide) (by decide) (by decide) (by decide) hshape
  obtain ⟨c1, c2, c3, c4, -, -⟩ := h
  exact ⟨c1, c2, c3, c4⟩

/-- Claim C10: the dimension registry satisfies the round-trip law — reading a
name immediately after registering it returns exactly the registered
DataFrame, a second registration under the same name overwrites the first, and
reading an unregistered name fails with a `ValueError` naming it. -/
theorem dimension_registry_roundtrip {α : Type} (reg : List (String × α))
    (n : String) (d d2 : α) (h : reg.lookup n = none) :
    get_dimension (register_dimension reg n d) n = .ok d ∧
    get_dimension (register_dimension (register_dimension reg n d) n d2) n = .ok d2 ∧
    get_dimension reg n = .error ("Dimension '" ++ n ++ "' not found in registry") := by
  refine ⟨?_, ?_, ?_⟩
  · simp [get_dimension, register_dimension, List.lookup]
  · simp [get_dimension, register_dimension, List.lookup]
  · simp [get_dimension, h]

/-- Witness for C10 at a concrete registry and name. -/
theorem dimension_registry_roundtrip_witness :
    ([] : List (String × Nat)).lookup "company_dim" = none ∧
    (get_dimension (register_dimension ([] : List (String × Nat)) "company_dim" 7) "company_dim" = .ok 7 ∧
     get_dimension (register_dimension (register_dimension ([] : List (String × Nat)) "company_dim" 7) "company_dim" 8) "company_dim" = .ok 8 ∧
     get_dimension ([] : List (String × Nat)) "company_dim" =
       .error ("Dimension '" ++ "company_dim" ++ "' not found in registry")) :=
  ⟨rfl, dimension_registry_roundtrip [] "company_dim" 7 8 rfl⟩

/-- Claim C9: `get_fabric_engine` rejects every falsy `sql_endpoint` (empty
string or `None`) with the exact `ValueError` message, before any driver
detection, token retrieval or engine creation is attempted. -/
theorem get_fabric_engine_falsy_guard (ep : Option String) (port : Int)
    (driverDetect tokenFetch : Except String String) (h : pyFalsy ep = true) :
    get_fabric_engine ep port driverDetect tokenFetch =
      (.error "sql_endpoint is required and cannot be empty.", []) := by
  simp [get_fabric_engine, h]

/-- Witness for C9 at the empty-string endpoint. -/
theorem get_fabric_engine_falsy_guard_witness :
    pyFalsy (some "") = true ∧
    get_fabric_engine (some "") 1433 (.ok "ODBC Driver 18 for SQL Server") (.ok "tok") =
      (.error "sql_endpoint is required and cannot be empty.", []) :=
  ⟨rfl, get_fabric_engine_falsy_guard (some "") 1433 _ _ rfl⟩

/-- Claim C7: `update_records_tsql` raises a ValidationError when
`columns_to_update` is empty; otherwise, for every non-empty join-key list,
the single generated statement contains exactly one tgt.[key] = src.[key]
equality predicate per join key, all AND-ed in the ON clause, plus a
tgt.[surrogateKey] IS NOT NULL guard, and the function returns the
driver-reported affected-row count. -/
theorem update_records_tsql_spec (target source : String)
    (joinKeys : List String) (surrogate : String) (cols : List String)
    (driverRowcount : Nat) (_hkeys : joinKeys ≠ []) (hnodup : joinKeys.Nodup)
    (hcols : cols ≠ []) :
    update_records_tsql target source (.inr joinKeys) surrogate [] driverRowcount =
      .error (.validationError "`columns_to_update` must be a non-empty list") ∧
    update_records_tsql target source (.inr joinKeys) surrogate cols driverRowcount =
      .ok (build_update_statement target source joinKeys surrogate cols,
        driverRowcount) ∧
    (build_update_statement target source joinKeys surrogate cols).onPredicates =
      joinKeys.map joinPredicate ∧
    (∀ k ∈ joinKeys,
      (build_update_statement target source joinKeys surrogate
        cols).onPredicates.countP (fun p => decide (p = joinPredicate k)) = 1) ∧
    (build_update_statement target source joinKeys surrogate
      cols).whereNotNullCol = surrogate := by
  refine ⟨by simp [update_records_tsql], ?_, rfl, ?_, rfl⟩
  · simp [update_records_tsql, normalizeJoinKeys, List.isEmpty_iff, hcols]
  · intro k hk
    have hinj : Function.Injective joinPredicate := by
      intro a b hab
      simpa [joinPredicate] using congrArg Prod.fst hab
    have hnd : (joinKeys.map joinPredicate).Nodup := hnodup.map hinj
    have hmem : joinPredicate k ∈ joinKeys.map joinPredicate :=
      List.mem_map_of_mem _ hk
    have hcount := List.count_eq_one_of_mem hnd hmem
    simp only [List.count] at hcount
    exact hcount

/-- Witness for C7 at one join key, one update column and driver count 3. -/
theorem update_records_tsql_spec_witness :
    (["id"] : List String) ≠ [] ∧ (["id"] : List String).Nodup ∧
    (["value"] : List String) ≠ [] ∧
    (update_records_tsql "target" "source" (.inr ["id"]) "id" [] 3 =
      .error (.validationError "`columns_to_update` must be a non-empty list") ∧
    update_records_tsql "target" "source" (.inr ["id"]) "id" ["value"] 3 =
      .ok (build_update_statement "target" "source" ["id"] "id" ["value"], 3) ∧
    (build_update_statement "target" "source" ["id"] "id"
      ["value"]).onPredicates = (["id"] : List String).map joinPredicate ∧
    (∀ k ∈ (["id"] : List String),
      (build_update_statement "target" "source" ["id"] "id"
        ["value"]).onPredicates.countP (fun p => decide (p = joinPredicate k)) = 1) ∧
    (build_update_statement "target" "source" ["id"] "id"
      ["value"]).whereNotNullCol = "id") :=
  ⟨by decide, by decide, by decide,
    update_records_tsql_spec "target" "source" ["id"] "id" ["value"] 3
      (by decide) (by decide) (by decide)⟩

lemma validate_no_nulls_ok_iff (rows : List VRow) (cols : List String) :
    validate_table_no_nulls rows cols = .ok () ↔
      ∀ r ∈ rows, ∀ c ∈ cols, r c ≠ none := by
  have hzero : nullViolationCount rows cols = 0 ↔
      ∀ r ∈ rows, ∀ c ∈ cols, r c ≠ none := by
    unfold nullViolationCount
    rw [List.length_eq_zero, List.filter_eq_nil_iff]
    constructor
    · intro h r hr c hc hnone
      refine h r hr ?_
      rw [List.any_eq_true]
      exact ⟨c, hc, by simp [hnone]⟩
    · intro h r hr hany
      rw [List.any_eq_true] at hany
      obtain ⟨c, hc, hcnone⟩ := hany
      exact h r hr c hc (Option.isNone_iff_eq_none.mp hcnone)
  constructor
  · intro h
    by_cases hz : nullViolationCount rows cols = 0
    · exact hzero.mp hz
    · simp [validate_table_no_nulls, hz] at h
  · intro h
    simp [validate_table_no_nulls, hzero.mpr h]

lemma validate_uniqueness_ok_iff (rows : List VRow) (cols : List String) :
    validate_table_uniqueness rows cols = .ok () ↔
      ∀ k : List (Option String), (rows.map (bkTuple cols)).count k ≤ 1 := by
  have hzero : duplicateGroupCount rows cols = 0 ↔
      ∀ k : List (Option String), (rows.map (bkTuple cols)).count k ≤ 1 := by
    unfold duplicateGroupCount
    rw [List.length_eq_zero, List.filter_eq_nil_iff]
    constructor
    · intro h k
      by_cases hk : k ∈ rows.map (bkTuple cols)
      · have := h k (List.mem_dedup.mpr hk)
        simpa using this
      · simp [List.count_eq_zero.mpr hk]
    · intro h k _
      simpa using h k
  constructor
  · intro h
    by_cases hz : duplicateGroupCount rows cols = 0
    · exact hzero.mp hz
    · simp [validate_table_uniqueness, hz] at h
  · intro h
    simp [validate_table_uniqueness, hzero.mpr h]

/-- Claim C8: both data-quality gates pass silently on an empty table and on
a table with zero violations, and on any violation fail with a
DataQualityError reporting the offending count exactly — the null check the
number of rows with a NULL listed column, the uniqueness check the number of
duplicated business-key groups. -/
theorem validators_spec (rows nrows drows : List VRow) (cols : List String)
    (hn : 0 < nullViolationCount nrows cols)
    (hd : 0 < duplicateGroupCount drows cols) :
    validate_table_no_nulls [] cols = .ok () ∧
    (validate_table_no_nulls rows cols = .ok () ↔
      ∀ r ∈ rows, ∀ c ∈ cols, r c ≠ none) ∧
    validate_table_no_nulls nrows cols = .error (.dataQualityError
      ("Found " ++ toString (nullViolationCount nrows cols) ++
        " rows with NULL values in business key columns")) ∧
    validate_table_uniqueness [] cols = .ok () ∧
    (validate_table_uniqueness rows cols = .ok () ↔
      ∀ k : List (Option String), (rows.map (bkTuple cols)).count k ≤ 1) ∧
    validate_table_uniqueness drows cols = .error (.dataQualityError
      ("Duplicate business keys found: " ++
        toString (duplicateGroupCount drows cols) ++
        " duplicated business key groups")) := by
  refine ⟨?_, validate_no_nulls_ok_iff rows cols, ?_, ?_,
    validate_uniqueness_ok_iff rows cols, ?_⟩
  · simp [validate_table_no_nulls, nullViolationCount]
  · simp [validate_table_no_nulls, Nat.pos_iff_ne_zero.mp hn]
  · simp [validate_table_uniqueness, duplicateGroupCount]
  · simp [validate_table_uniqueness, Nat.pos_iff_ne_zero.mp hd]

/-- Witness for C8 on concrete two-row tables: one with a NULL business key,
one with a duplicated business key. -/
theorem validators_spec_witness :
    0 < nullViolationCount
      [fun c => if c = "code" then none else some "x", fun _ => some "y"]
      ["code"] ∧
    0 < duplicateGroupCount [fun _ => some "y", fun _ => some "y"] ["code"] ∧
    (validate_table_no_nulls [] ["code"] = .ok () ∧
    (validate_table_no_nulls [fun _ => (some "y" : Option String)] ["code"] = .ok () ↔
      ∀ r ∈ [fun _ => (some "y" : Option String)], ∀ c ∈ ["code"], r c ≠ none) ∧
    validate_table_no_nulls
      [fun c => if c = "code" then none else some "x", fun _ => some "y"]
      ["code"] = .error (.dataQualityError
        ("Found " ++ toString (nullViolationCount
          [fun c => if c = "code" then none else some "x", fun _ => some "y"]
          ["code"]) ++ " rows with NULL values in business key columns")) ∧
    validate_table_uniqueness [] ["code"] = .ok () ∧
    (validate_table_uniqueness [fun _ => (some "y" : Option String)] ["code"] = .ok () ↔
      ∀ k : List (Option String),
        (([fun _ => (some "y" : Option String)]).map (bkTuple ["code"])).count k ≤ 1) ∧
    validate_table_uniqueness [fun _ => some "y", fun _ => some "y"] ["code"] =
      .error (.dataQualityError
        ("Duplicate business keys found: " ++
          toString (duplicateGroupCount
            [fun _ => some "y", fun _ => some "y"] ["code"]) ++
          " duplicated business key groups"))) :=
  ⟨by decide, by decide,
    validators_spec [fun _ => some "y"]
      [fun c => if c = "code" then none else some "x", fun _ => some "y"]
      [fun _ => some "y", fun _ => some "y"] ["code"] (by decide) (by decide)⟩

lemma assignKeysFrom_keys (sk : String) (n : Int) (rows : List Row) :
    (assignKeysFrom sk n rows).map (fun r => r sk) =
      (List.range rows.length).map (fun i : Nat => Value.intV (n + (i : Int))) := by
  induction rows generalizing n with
  | nil => simp [assignKeysFrom]
  | cons r rs ih =>
      simp only [assignKeysFrom, List.map_cons, List.length_cons,
        List.range_succ_eq_map, List.map_map]
      refine List.cons_eq_cons.mpr ⟨?_, ?_⟩
      · simp [setCol]
      · rw [ih (n + 1)]
        refine List.map_congr_left ?_
        intro i _
        simp only [Function.comp]
        congr 1
        push_cast
        ring

/-- Claim C1: when the current max of the surrogate-key column is absent or
null, `populate_table_from_source` treats maxId as 0, so the surrogate keys
assigned by the windowed INSERT are 0 + rowNumber for a dense 1-based
rowNumber over the inserted row set. -/
theorem populate_max_none_dense_keys (target source : List Row)
    (matchKeys : List String) (sk : String) (updateCols : List String)
    (dr : Option Int) (fb : Except DPError Nat) (ds : Bool)
    (h : _get_max_surrogate_key target sk = none) :
    (populate_table_from_source target source matchKeys sk updateCols
        dr fb ds).1 =
      updatePhase target source matchKeys updateCols ++
        assignSurrogateKeys 0 sk (newSourceRows target source matchKeys) ∧
    (assignSurrogateKeys 0 sk (newSourceRows target source matchKeys)).map
        (fun r => r sk) =
      (List.range (newSourceRows target source matchKeys).length).map
        (fun i : Nat => Value.intV (0 + ((i : Int) + 1))) := by
  constructor
  · simp [populate_table_from_source, h]
  · rw [assignSurrogateKeys, assignKeysFrom_keys]
    refine List.map_congr_left ?_
    intro i _
    congr 1
    ring

/-- Witness for C1 on an empty target (max absent) and a one-row source. -/
theorem populate_max_none_dense_keys_witness :
    _get_max_surrogate_key [] "Business_Unit_Id" = none ∧
    ((populate_table_from_source [] [fun _ => Value.strV "BU2"]
        ["Business_Unit_Cd"] "Business_Unit_Id" [] none (.ok 1) false).1 =
      updatePhase [] [fun _ => Value.strV "BU2"] ["Business_Unit_Cd"] [] ++
        assignSurrogateKeys 0 "Business_Unit_Id"
          (newSourceRows [] [fun _ => Value.strV "BU2"] ["Business_Unit_Cd"]) ∧
    (assignSurrogateKeys 0 "Business_Unit_Id"
        (newSourceRows [] [fun _ => Value.strV "BU2"]
          ["Business_Unit_Cd"])).map (fun r => r "Business_Unit_Id") =
      (List.range (newSourceRows [] [fun _ => Value.strV "BU2"]
          ["Business_Unit_Cd"]).length).map
        (fun i : Nat => Value.intV (0 + ((i : Int) + 1)))) :=
  ⟨rfl, populate_max_none_dense_keys [] [fun _ => Value.strV "BU2"]
    ["Business_Unit_Cd"] "Business_Unit_Id" [] none (.ok 1) false rfl⟩

/-- Claim C2: row-count resolution — a non-null, non-negative driver count
for the INSERT becomes rows_inserted directly; an unusable driver count
falls back to the COUNT query; and when that fallback itself fails the
function still returns a result (no raise), records a warning,
rows_inserted = 0, and rows_updated still equals the UPDATE phase's
driver-reported affected-row count. -/
theorem populate_row_count_resolution (target source : List Row)
    (matchKeys : List String) (sk : String) (updateCols : List String)
    (ds : Bool) (n : Int) (m : Nat) (e : DPError) (dr : Option Int)
    (fb : Except DPError Nat) (hn : 0 ≤ n)
    (hdr : dr = none ∨ ∃ j : Int, dr = some j ∧ j < 0) :
    (populate_table_from_source target source matchKeys sk updateCols
        (some n) fb ds).2.2.1 =
      ⟨updateAffectedCount target source matchKeys, n.toNat⟩ ∧
    (populate_table_from_source target source matchKeys sk updateCols
        dr (.ok m) ds).2.2.1 =
      ⟨updateAffectedCount target source matchKeys, m⟩ ∧
    (populate_table_from_source target source matchKeys sk updateCols
        dr (.error e) ds).2.2.1 =
      ⟨updateAffectedCount target source matchKeys, 0⟩ ∧
    (populate_table_from_source target source matchKeys sk updateCols
        dr (.error e) ds).2.2.2 =
      ["Could not determine row count from fallback count SQL"] := by
  have hdrv : ∀ fb2 : Except DPError Nat,
      resolveInsertedCount dr fb2 = fallbackResolve fb2 := by
    intro fb2
    rcases hdr with rfl | ⟨j, rfl, hj⟩
    · rfl
    · simp [resolveInsertedCount, not_le.mpr hj]
  refine ⟨?_, ?_, ?_, ?_⟩
  · simp [populate_table_from_source, resolveInsertedCount, hn]
  · simp [populate_table_from_source, hdrv, fallbackResolve]
  · simp [populate_table_from_source, hdrv, fallbackResolve]
  · simp [populate_table_from_source, hdrv, fallbackResolve]

/-- Witness for C2 with driver count 2, fallback count 5, and a failing
fallback, on a one-row target and two-row source. -/
theorem populate_row_count_resolution_witness :
    (0 : Int) ≤ 2 ∧ ((none : Option Int) = none ∨
      ∃ j : Int, (none : Option Int) = some j ∧ j < 0) ∧
    ((populate_table_from_source [fun _ => Value.strV "BU1"]
        [fun _ => Value.strV "BU1", fun _ => Value.strV "BU2"]
        ["Business_Unit_Cd"] "Business_Unit_Id" [] (some 2) (.ok 5)
        false).2.2.1 =
      ⟨updateAffectedCount [fun _ => Value.strV "BU1"]
        [fun _ => Value.strV "BU1", fun _ => Value.strV "BU2"]
        ["Business_Unit_Cd"], (2 : Int).toNat⟩ ∧
    (populate_table_from_source [fun _ => Value.strV "BU1"]
        [fun _ => Value.strV "BU1", fun _ => Value.strV "BU2"]
        ["Business_Unit_Cd"] "Business_Unit_Id" [] none (.ok 5)
        false).2.2.1 =
      ⟨updateAffectedCount [fun _ => Value.strV "BU1"]
        [fun _ => Value.strV "BU1", fun _ => Value.strV "BU2"]
        ["Business_Unit_Cd"], 5⟩ ∧
    (populate_table_from_source [fun _ => Value.strV "BU1"]
        [fun _ => Value.strV "BU1", fun _ => Value.strV "BU2"]
        ["Business_Unit_Cd"] "Business_Unit_Id" [] none
        (.error (.databaseError "Simulated fallback count failure"))
        false).2.2.1 =
      ⟨updateAffectedCount [fun _ => Value.strV "BU1"]
        [fun _ => Value.strV "BU1", fun _ => Value.strV "BU2"]
        ["Business_Unit_Cd"], 0⟩ ∧
    (populate_table_from_source [fun _ => Value.strV "BU1"]
        [fun _ => Value.strV "BU1", fun _ => Value.strV "BU2"]
        ["Business_Unit_Cd"] "Business_Unit_Id" [] none
        (.error (.databaseError "Simulated fallback count failure"))
        false).2.2.2 =
      ["Could not determine row count from fallback count SQL"]) :=
  ⟨by decide, Or.inl rfl,
    populate_row_count_resolution [fun _ => Value.strV "BU1"]
      [fun _ => Value.strV "BU1", fun _ => Value.strV "BU2"]
      ["Business_Unit_Cd"] "Business_Unit_Id" [] false 2 5
      (.databaseError "Simulated fallback count failure") none (.ok 5)
      (by decide) (Or.inl rfl)⟩

/-- Counterexample to C3 as stated: with the target absent and surrogate key
"" — a string that is not a source column — the function returns
created:true, added:false, not added:true as the claim's first case demands;
the repository's test for this call (surrogate_key = "") asserts
added_surrogate_key is False. -/
theorem create_table_empty_surrogate_counterexample :
    ("" ∉ ["id", "name"]) ∧
    (create_table_from_existing_table_schema
        (updateTable (fun _ => none) "source_table" ⟨["id", "name"], []⟩)
        "source_table" "target_table" "").map Prod.snd =
      .ok ⟨true, false⟩ ∧
    CreateTableResult.mk true false ≠ CreateTableResult.mk true true := by
  refine ⟨by decide, ?_, by decide⟩
  rfl

/-- Claim C3 (amended: the first case additionally requires the surrogate
key to be non-empty): the schema cloner returns created:true, added:true
when the target does not exist and the non-empty surrogate key is not a
source column; created:true, added:false when the target does not exist and
the surrogate key is already a source column; created:false, added:false
with the database untouched whenever the target exists and is non-empty,
regardless of missing columns; and created:false, added:true when the target
exists, has zero rows, and is missing the non-empty surrogate key column. -/
theorem create_table_from_existing_schema_spec (db : Database)
    (source_table target_table surrogate_key : String) (src tgt : TableData) :
    (db target_table = none → db source_table = some src →
      surrogate_key ≠ "" → surrogate_key ∉ src.cols →
      (create_table_from_existing_table_schema db source_table target_table
        surrogate_key).map Prod.snd = .ok ⟨true, true⟩) ∧
    (db target_table = none → db source_table = some src →
      surrogate_key ∈ src.cols →
      (create_table_from_existing_table_schema db source_table target_table
        surrogate_key).map Prod.snd = .ok ⟨true, false⟩) ∧
    (db target_table = some tgt → tgt.rows ≠ [] →
      create_table_from_existing_table_schema db source_table target_table
        surrogate_key = .ok (db, ⟨false, false⟩)) ∧
    (db target_table = some tgt → tgt.rows = [] → surrogate_key ≠ "" →
      surrogate_key ∉ tgt.cols →
      (create_table_from_existing_table_schema db source_table target_table
        surrogate_key).map Prod.snd = .ok ⟨false, true⟩) := by
  refine ⟨?_, ?_, ?_, ?_⟩
  · intro h1 h2 h3 h4
    simp only [create_table_from_existing_table_schema, h1, h2]
    rw [if_pos ⟨h3, h4⟩]
    rfl
  · intro h1 h2 h3
    have hnot : ¬(surrogate_key ≠ "" ∧ surrogate_key ∉ src.cols) :=
      fun hcon => hcon.2 h3
    simp only [create_table_from_existing_table_schema, h1, h2]
    rw [if_neg hnot]
    rfl
  · intro h1 h2
    have hnot : ¬(tgt.rows.isEmpty = true ∧ surrogate_key ≠ "" ∧
        surrogate_key ∉ tgt.cols) :=
      fun hcon => h2 (List.isEmpty_iff.mp hcon.1)
    simp only [create_table_from_existing_table_schema, h1]
    rw [if_neg hnot]
  · intro h1 h2 h3 h4
    have hcond : tgt.rows.isEmpty = true ∧ surrogate_key ≠ "" ∧
        surrogate_key ∉ tgt.cols :=
      ⟨List.isEmpty_iff.mpr h2, h3, h4⟩
    simp only [create_table_from_existing_table_schema, h1]
    rw [if_pos hcond]
    rfl

/-- Witness for C3 (amended), covering all four cases on concrete
databases. -/
theorem create_table_from_existing_schema_spec_witness :
    (create_table_from_existing_table_schema
        (updateTable (fun _ => none) "source_table" ⟨["id", "name"], []⟩)
        "source_table" "target_table" "Assurance_Id").map Prod.snd =
      .ok ⟨true, true⟩ ∧
    (create_table_from_existing_table_schema
        (updateTable (fun _ => none) "source_table"
          ⟨["Assurance_Id", "id", "name"], []⟩)
        "source_table" "target_table" "Assurance_Id").map Prod.snd =
      .ok ⟨true, false⟩ ∧
    create_table_from_existing_table_schema
        (updateTable (fun _ => none) "existing_target"
          ⟨["id", "name"], [fun _ => Value.nullV]⟩)
        "source_table" "existing_target" "Assurance_Id" =
      .ok (updateTable (fun _ => none) "existing_target"
        ⟨["id", "name"], [fun _ => Value.nullV]⟩, ⟨false, false⟩) ∧
    (create_table_from_existing_table_schema
        (updateTable (fun _ => none) "empty_target" ⟨["id", "name"], []⟩)
        "source_table" "empty_target" "Assurance_Id").map Prod.snd =
      .ok ⟨false, true⟩ :=
  ⟨(create_table_from_existing_schema_spec
      (updateTable (fun _ => none) "source_table" ⟨["id", "name"], []⟩)
      "source_table" "target_table" "Assurance_Id" ⟨["id", "name"], []⟩
      ⟨[], []⟩).1 rfl rfl (by decide) (by decide),
   (create_table_from_existing_schema_spec
      (updateTable (fun _ => none) "source_table"
        ⟨["Assurance_Id", "id", "name"], []⟩)
      "source_table" "target_table" "Assurance_Id"
      ⟨["Assurance_Id", "id", "name"], []⟩ ⟨[], []⟩).2.1 rfl rfl (by decide),
   (create_table_from_existing_schema_spec
      (updateTable (fun _ => none) "existing_target"
        ⟨["id", "name"], [fun _ => Value.nullV]⟩)
      "source_table" "existing_target" "Assurance_Id" ⟨[], []⟩
      ⟨["id", "name"], [fun _ => Value.nullV]⟩).2.2.1 rfl
     (by simp),
   (create_table_from_existing_schema_spec
      (updateTable (fun _ => none) "empty_target" ⟨["id", "name"], []⟩)
      "source_table" "empty_target" "Assurance_Id" ⟨[], []⟩
      ⟨["id", "name"], []⟩).2.2.2 rfl rfl (by decide) (by decide)⟩

lemma string_ne_of_head (a b : String) (h : a.data.head? ≠ b.data.head?) :
    a ≠ b :=
  fun he => h (congrArg (fun s => s.data.head?) he)

lemma validationError_ne (a b : String) (h : a ≠ b) :
    DPError.validationError a ≠ DPError.validationError b :=
  fun he => h (DPError.validationError.inj he)

lemma head_source_msg (st : String) :
    ("Source table " ++ st ++ " does not exist").data.head? = some 'S' := by
  rw [String.data_append, String.data_append]
  rfl

lemma head_target_msg (tt : String) :
    ("Target table " ++ tt ++ " does not exist").data.head? = some 'T' := by
  rw [String.data_append, String.data_append]
  rfl

/-- Claim C5: `insert_new_records_dynamic` raises a distinct ValidationError,
with no database state produced (no mutation occurs, the error is raised
before any mutating statement), for each of: a business key that is not a
string or list of strings; a missing source table; a missing target table; no
common columns once the surrogate key is excluded; and a business-key column
absent from either table.  The five errors are pairwise distinct. -/
theorem insert_new_records_dynamic_validation (db : Database)
    (st tt sk : String) (dsi : Int) (src tgt : TableData)
    (bk : BusinessKeyArg) (keys : List String)
    (hbk : normalizeBusinessKey bk = some keys) :
    insert_new_records_dynamic db st tt .invalid sk dsi =
      .error (.validationError
        "`business_key` must be a string or a list of strings") ∧
    (db st = none → insert_new_records_dynamic db st tt bk sk dsi =
      .error (.validationError
        ("Source table " ++ st ++ " does not exist"))) ∧
    (db st = some src → db tt = none →
      insert_new_records_dynamic db st tt bk sk dsi =
      .error (.validationError
        ("Target table " ++ tt ++ " does not exist"))) ∧
    (db st = some src → db tt = some tgt →
      commonCols src.cols tgt.cols sk = [] →
      insert_new_records_dynamic db st tt bk sk dsi =
      .error (.validationError
        "No common columns between source and target tables")) ∧
    (db st = some src → db tt = some tgt →
      commonCols src.cols tgt.cols sk ≠ [] →
      ¬(∀ k ∈ keys, k ∈ src.cols ∧ k ∈ tgt.cols) →
      insert_new_records_dynamic db st tt bk sk dsi =
      .error (.validationError
        "Business key(s) missing from source or target table")) ∧
    ((DPError.validationError
        "`business_key` must be a string or a list of strings" ≠
      DPError.validationError ("Source table " ++ st ++ " does not exist")) ∧
     (DPError.validationError
        "`business_key` must be a string or a list of strings" ≠
      DPError.validationError ("Target table " ++ tt ++ " does not exist")) ∧
     (DPError.validationError
        "`business_key` must be a string or a list of strings" ≠
      DPError.validationError
        "No common columns between source and target tables") ∧
     (DPError.validationError
        "`business_key` must be a string or a list of strings" ≠
      DPError.validationError
        "Business key(s) missing from source or target table") ∧
     (DPError.validationError ("Source table " ++ st ++ " does not exist") ≠
      DPError.validationError ("Target table " ++ tt ++ " does not exist")) ∧
     (DPError.validationError ("Source table " ++ st ++ " does not exist") ≠
      DPError.validationError
        "No common columns between source and target tables") ∧
     (DPError.validationError ("Source table " ++ st ++ " does not exist") ≠
      DPError.validationError
        "Business key(s) missing from source or target table") ∧
     (DPError.validationError ("Target table " ++ tt ++ " does not exist") ≠
      DPError.validationError
        "No common columns between source and target tables") ∧
     (DPError.validationError ("Target table " ++ tt ++ " does not exist") ≠
      DPError.validationError
        "Business key(s) missing from source or target table") ∧
     (DPError.validationError
        "No common columns between source and target tables" ≠
      DPError.validationError
        "Business key(s) missing from source or target table")) := by
  refine ⟨rfl, ?_, ?_, ?_, ?_, ?_⟩
  · intro h1
    simp only [insert_new_records_dynamic, hbk, h1]
  · intro h1 h2
    simp only [insert_new_records_dynamic, hbk, h1, h2]
  · intro h1 h2 h3
    have hce : (commonCols src.cols tgt.cols sk).isEmpty = true :=
      List.isEmpty_iff.mpr h3
    simp only [insert_new_records_dynamic, hbk, h1, h2]
    rw [if_pos hce]
  · intro h1 h2 h3 h4
    have hce : ¬((commonCols src.cols tgt.cols sk).isEmpty = true) :=
      fun hc => h3 (List.isEmpty_iff.mp hc)
    have hall : keys.all
        (fun k => decide (k ∈ src.cols) && decide (k ∈ tgt.cols)) = false := by
      refine Bool.eq_false_iff.mpr ?_
      intro hc
      apply h4
      intro k hk
      have := List.all_eq_true.mp hc k hk
      simpa using this
    simp only [insert_new_records_dynamic, hbk, h1, h2]
    rw [if_neg hce, if_pos (by rw [hall]; rfl)]
  · refine ⟨?_, ?_, by decide, by decide, ?_, ?_, ?_, ?_, ?_, by decide⟩
    · refine validationError_ne _ _ (string_ne_of_head _ _ ?_)
      rw [head_source_msg]
      decide
    · refine validationError_ne _ _ (string_ne_of_head _ _ ?_)
      rw [head_target_msg]
      decide
    · refine validationError_ne _ _ (string_ne_of_head _ _ ?_)
      rw [head_source_msg, head_target_msg]
      decide
    · refine validationError_ne _ _ (string_ne_of_head _ _ ?_)
      rw [head_source_msg]
      decide
    · refine validationError_ne _ _ (string_ne_of_head _ _ ?_)
      rw [head_source_msg]
      decide
    · refine validationError_ne _ _ (string_ne_of_head _ _ ?_)
      rw [head_target_msg]
      decide
    · refine validationError_ne _ _ (string_ne_of_head _ _ ?_)
      rw [head_target_msg]
      decide

/-- Witness for C5: each validation error triggered on a concrete database,
plus the pairwise distinctness of the five errors. -/
theorem insert_new_records_dynamic_validation_witness :
    insert_new_records_dynamic (fun _ => none) "missing_source" "target"
        .invalid "Assurance_Id" 0 =
      .error (.validationError
        "`business_key` must be a string or a list of strings") ∧
    insert_new_records_dynamic (fun _ => none) "missing_source" "target"
        (.str "Assurance_Cd") "Assurance_Id" 0 =
      .error (.validationError
        ("Source table " ++ "missing_source" ++ " does not exist")) ∧
    insert_new_records_dynamic
        (updateTable (fun _ => none) "source" ⟨["id"], []⟩)
        "source" "missing_target" (.str "Assurance_Cd") "Assurance_Id" 0 =
      .error (.validationError
        ("Target table " ++ "missing_target" ++ " does not exist")) ∧
    insert_new_records_dynamic
        (updateTable (updateTable (fun _ => none) "source"
          ⟨["Assurance_Id", "colA"], []⟩) "target"
          ⟨["Assurance_Id", "colB"], []⟩)
        "source" "target" (.str "Assurance_Cd") "Assurance_Id" 0 =
      .error (.validationError
        "No common columns between source and target tables") ∧
    insert_new_records_dynamic
        (updateTable (updateTable (fun _ => none) "source"
          ⟨["id", "colA"], []⟩) "target" ⟨["id", "colA"], []⟩)
        "source" "target" (.str "Assurance_Cd") "Assurance_Id" 0 =
      .error (.validationError
        "Business key(s) missing from source or target table") ∧
    DPError.validationError
        ("Source table " ++ "missing_source" ++ " does not exist") ≠
      DPError.validationError
        ("Target table " ++ "target" ++ " does not exist") := by
  have hA := insert_new_records_dynamic_validation (fun _ => none)
    "missing_source" "target" "Assurance_Id" 0 ⟨[], []⟩ ⟨[], []⟩
    (.str "Assurance_Cd") ["Assurance_Cd"] rfl
  have hB := insert_new_records_dynamic_validation
    (updateTable (fun _ => none) "source" ⟨["id"], []⟩)
    "source" "missing_target" "Assurance_Id" 0 ⟨["id"], []⟩ ⟨[], []⟩
    (.str "Assurance_Cd") ["Assurance_Cd"] rfl
  have hC := insert_new_records_dynamic_validation
    (updateTable (updateTable (fun _ => none) "source"
      ⟨["Assurance_Id", "colA"], []⟩) "target" ⟨["Assurance_Id", "colB"], []⟩)
    "source" "target" "Assurance_Id" 0 ⟨["Assurance_Id", "colA"], []⟩
    ⟨["Assurance_Id", "colB"], []⟩ (.str "Assurance_Cd") ["Assurance_Cd"] rfl
  have hD := insert_new_records_dynamic_validation
    (updateTable (updateTable (fun _ => none) "source"
      ⟨["id", "colA"], []⟩) "target" ⟨["id", "colA"], []⟩)
    "source" "target" "Assurance_Id" 0 ⟨["id", "colA"], []⟩
    ⟨["id", "colA"], []⟩ (.str "Assurance_Cd") ["Assurance_Cd"] rfl
  refine ⟨hA.1, hA.2.1 rfl, hB.2.2.1 rfl rfl, ?_, ?_, hA.2.2.2.2.2.2.2.2.2.1⟩
  · exact hC.2.2.2.1 rfl rfl (by decide)
  · exact hD.2.2.2.2.1 rfl rfl (by decide) (by decide)

lemma mem_commonCols (srcCols tgtCols : List String) (sk k : String)
    (h1 : k ∈ srcCols) (h2 : k ∈ tgtCols) (h3 : k ≠ sk) :
    k ∈ commonCols srcCols tgtCols sk := by
  simp [commonCols, List.mem_filter, h1, h2, h3]

lemma bkProj_projectRow (keys common : List String) (sk : String) (i : Int)
    (s : Row) (hskk : sk ∉ keys) (hsub : ∀ k ∈ keys, k ∈ common) :
    bkProj keys (projectRow common sk i s) = bkProj keys s := by
  unfold bkProj projectRow
  refine List.map_congr_left ?_
  intro k hk
  have h1 : ¬(k = sk) := fun he => hskk (he ▸ hk)
  simp [h1, hsub k hk]

lemma buildNewRows_nil (common : List String) (sk : String) (n : Int) :
    buildNewRows common sk n [] = [] := rfl

lemma buildNewRows_map_bkProj (common keys : List String) (sk : String)
    (hskk : sk ∉ keys) (hsub : ∀ k ∈ keys, k ∈ common) (n : Int)
    (rows : List Row) :
    (buildNewRows common sk n rows).map (bkProj keys) =
      rows.map (bkProj keys) := by
  induction rows generalizing n with
  | nil => simp [buildNewRows]
  | cons s ss ih =>
      simp only [buildNewRows, List.map_cons]
      rw [bkProj_projectRow keys common sk n s hskk hsub, ih (n + 1)]

lemma insert_new_records_dynamic_ok (db : Database) (st tt : String)
    (bk : BusinessKeyArg) (keys : List String) (sk : String) (dsi : Int)
    (src tgt : TableData) (hbk : normalizeBusinessKey bk = some keys)
    (hsrc : db st = some src) (htgt : db tt = some tgt)
    (hcommon : commonCols src.cols tgt.cols sk ≠ [])
    (hkeys : ∀ k ∈ keys, k ∈ src.cols ∧ k ∈ tgt.cols) :
    insert_new_records_dynamic db st tt bk sk dsi =
      .ok (updateTable db tt ⟨tgt.cols, tgt.rows ++
        buildNewRows (commonCols src.cols tgt.cols sk) sk
          (((_get_max_surrogate_key tgt.rows sk).getD dsi) + 1)
          (antiJoinRows keys src.rows tgt.rows)⟩) := by
  have hce : ¬((commonCols src.cols tgt.cols sk).isEmpty = true) :=
    fun hc => hcommon (List.isEmpty_iff.mp hc)
  have hall : keys.all
      (fun k => decide (k ∈ src.cols) && decide (k ∈ tgt.cols)) = true := by
    rw [List.all_eq_true]
    intro k hk
    simp [(hkeys k hk).1, (hkeys k hk).2]
  simp only [insert_new_records_dynamic, hbk, hsrc, htgt]
  rw [if_neg hce, if_neg (by rw [hall]; simp)]

/-- Claim C4: `insert_new_records_dynamic` is idempotent with respect to row
membership — a source row whose business-key tuple already appears in the
target's business-key projection is never selected by the anti-join (hence
never inserted), and running the operation a second time with an unchanged
source selects zero rows and leaves the target's row set unchanged. -/
theorem insert_new_records_dynamic_idempotent (db : Database)
    (st tt : String) (bk : BusinessKeyArg) (keys : List String) (sk : String)
    (dsi : Int) (src tgt : TableData)
    (hbk : normalizeBusinessKey bk = some keys)
    (hsrc : db st = some src) (htgt : db tt = some tgt) (hne : st ≠ tt)
    (hskk : sk ∉ keys)
    (hkeys : ∀ k ∈ keys, k ∈ src.cols ∧ k ∈ tgt.cols)
    (hcommon : commonCols src.cols tgt.cols sk ≠ []) :
    (∀ s, (∃ t ∈ tgt.rows, bkProj keys s = bkProj keys t) →
        s ∉ antiJoinRows keys src.rows tgt.rows) ∧
    ∃ db', insert_new_records_dynamic db st tt bk sk dsi = .ok db' ∧
      ∃ t1, db' tt = some t1 ∧
        antiJoinRows keys src.rows t1.rows = [] ∧
        ∃ db'', insert_new_records_dynamic db' st tt bk sk dsi = .ok db'' ∧
          ∃ t2, db'' tt = some t2 ∧ t2.rows = t1.rows ∧ t2.cols = t1.cols := by
  have hsub : ∀ k ∈ keys, k ∈ commonCols src.cols tgt.cols sk := by
    intro k hk
    exact mem_commonCols _ _ _ _ (hkeys k hk).1 (hkeys k hk).2
      (fun he => hskk (he ▸ hk))
  constructor
  · rintro s ⟨t, ht, he⟩ hmem
    rw [antiJoinRows, List.mem_filter] at hmem
    have hb := hmem.2
    have hany : tgt.rows.any
        (fun t2 => decide (bkProj keys s = bkProj keys t2)) = true := by
      rw [List.any_eq_true]
      exact ⟨t, ht, by simp [he]⟩
    rw [hany] at hb
    simp at hb
  · have hrun1 := insert_new_records_dynamic_ok db st tt bk keys sk dsi src
      tgt hbk hsrc htgt hcommon hkeys
    have hmapkeys :
        (buildNewRows (commonCols src.cols tgt.cols sk) sk
            (((_get_max_surrogate_key tgt.rows sk).getD dsi) + 1)
            (antiJoinRows keys src.rows tgt.rows)).map (bkProj keys) =
          (antiJoinRows keys src.rows tgt.rows).map (bkProj keys) :=
      buildNewRows_map_bkProj _ keys sk hskk hsub _ _
    have hA2 : antiJoinRows keys src.rows (tgt.rows ++
        buildNewRows (commonCols src.cols tgt.cols sk) sk
          (((_get_max_surrogate_key tgt.rows sk).getD dsi) + 1)
          (antiJoinRows keys src.rows tgt.rows)) = [] := by
      rw [antiJoinRows, List.filter_eq_nil_iff]
      intro s hs
      have hany : (tgt.rows ++
          buildNewRows (commonCols src.cols tgt.cols sk) sk
            (((_get_max_surrogate_key tgt.rows sk).getD dsi) + 1)
            (antiJoinRows keys src.rows tgt.rows)).any
          (fun t => decide (bkProj keys s = bkProj keys t)) = true := by
        rw [List.any_eq_true]
        by_cases hmatch : ∃ t ∈ tgt.rows, bkProj keys s = bkProj keys t
        · obtain ⟨t, ht, he⟩ := hmatch
          exact ⟨t, List.mem_append_left _ ht, by simp [he]⟩
        · have hsA : s ∈ antiJoinRows keys src.rows tgt.rows := by
            rw [antiJoinRows, List.mem_filter]
            refine ⟨hs, ?_⟩
            have hanyf : tgt.rows.any
                (fun t => decide (bkProj keys s = bkProj keys t)) = false := by
              refine Bool.eq_false_iff.mpr ?_
              intro hc
              rw [List.any_eq_true] at hc
              obtain ⟨t, ht, he⟩ := hc
              exact hmatch ⟨t, ht, of_decide_eq_true he⟩
            rw [hanyf]
            rfl
          have hmem2 : bkProj keys s ∈
              (buildNewRows (commonCols src.cols tgt.cols sk) sk
                (((_get_max_surrogate_key tgt.rows sk).getD dsi) + 1)
                (antiJoinRows keys src.rows tgt.rows)).map (bkProj keys) := by
            rw [hmapkeys]
            exact List.mem_map_of_mem _ hsA
          obtain ⟨t, ht, he⟩ := List.mem_map.mp hmem2
          exact ⟨t, List.mem_append_right _ ht, by simp [he]⟩
      rw [hany]
      simp
    refine ⟨_, hrun1, ⟨tgt.cols, tgt.rows ++
      buildNewRows (commonCols src.cols tgt.cols sk) sk
        (((_get_max_surrogate_key tgt.rows sk).getD dsi) + 1)
        (antiJoinRows keys src.rows tgt.rows)⟩, by simp [updateTable],
      hA2, ?_⟩
    have hsrc2 : updateTable db tt ⟨tgt.cols, tgt.rows ++
        buildNewRows (commonCols src.cols tgt.cols sk) sk
          (((_get_max_surrogate_key tgt.rows sk).getD dsi) + 1)
          (antiJoinRows keys src.rows tgt.rows)⟩ st = some src := by
      simp only [updateTable, if_neg hne]
      exact hsrc
    have htgt2 : updateTable db tt ⟨tgt.cols, tgt.rows ++
        buildNewRows (commonCols src.cols tgt.cols sk) sk
          (((_get_max_surrogate_key tgt.rows sk).getD dsi) + 1)
          (antiJoinRows keys src.rows tgt.rows)⟩ tt =
        some ⟨tgt.cols, tgt.rows ++
          buildNewRows (commonCols src.cols tgt.cols sk) sk
            (((_get_max_surrogate_key tgt.rows sk).getD dsi) + 1)
            (antiJoinRows keys src.rows tgt.rows)⟩ := by
      simp [updateTable]
    have hrun2 := insert_new_records_dynamic_ok
      (updateTable db tt ⟨tgt.cols, tgt.rows ++
        buildNewRows (commonCols src.cols tgt.cols sk) sk
          (((_get_max_surrogate_key tgt.rows sk).getD dsi) + 1)
          (antiJoinRows keys src.rows tgt.rows)⟩) st tt bk keys sk dsi src
      ⟨tgt.cols, tgt.rows ++
        buildNewRows (commonCols src.cols tgt.cols sk) sk
          (((_get_max_surrogate_key tgt.rows sk).getD dsi) + 1)
          (antiJoinRows keys src.rows tgt.rows)⟩ hbk hsrc2 htgt2 hcommon hkeys
    rw [hA2] at hrun2
    refine ⟨_, hrun2,
      ⟨tgt.cols, (tgt.rows ++
        buildNewRows (commonCols src.cols tgt.cols sk) sk
          (((_get_max_surrogate_key tgt.rows sk).getD dsi) + 1)
          (antiJoinRows keys src.rows tgt.rows)) ++
        buildNewRows (commonCols src.cols tgt.cols sk) sk
          (((_get_max_surrogate_key (tgt.rows ++
            buildNewRows (commonCols src.cols tgt.cols sk) sk
              (((_get_max_surrogate_key tgt.rows sk).getD dsi) + 1)
              (antiJoinRows keys src.rows tgt.rows)) sk).getD dsi) + 1) []⟩,
      by simp [updateTable], ?_, rfl⟩
    show _ ++ buildNewRows _ _ _ [] = _
    rw [buildNewRows_nil]
    simp

/-- Witness for C4 on the concrete A1/B2 fixture: B2 is never re-selected,
and a second run leaves the target's rows unchanged. -/
theorem insert_new_records_dynamic_idempotent_witness :
    (∀ s, (∃ t ∈ wTgt.rows,
        bkProj ["Assurance_Cd"] s = bkProj ["Assurance_Cd"] t) →
      s ∉ antiJoinRows ["Assurance_Cd"] wSrc.rows wTgt.rows) ∧
    ∃ db', insert_new_records_dynamic wDb "source" "target"
        (.str "Assurance_Cd") "Assurance_Id" 100 = .ok db' ∧
      ∃ t1, db' "target" = some t1 ∧
        antiJoinRows ["Assurance_Cd"] wSrc.rows t1.rows = [] ∧
        ∃ db'', insert_new_records_dynamic db' "source" "target"
            (.str "Assurance_Cd") "Assurance_Id" 100 = .ok db'' ∧
          ∃ t2, db'' "target" = some t2 ∧ t2.rows = t1.rows ∧
            t2.cols = t1.cols :=
  insert_new_records_dynamic_idempotent wDb "source" "target"
    (.str "Assurance_Cd") ["Assurance_Cd"] "Assurance_Id" 100 wSrc wTgt rfl
    rfl rfl (by decide) (by decide) (by decide) (by decide)

end DataPrepKit
